import Mathlib

/-!
Shallow embedding of the VuOs watchdog agent's ops plane: the command/ack
processor with idempotency and lease enforcement (src/commands.ts,
src/lease.ts), the health condition engine (src/health.ts), and the
per-viewer WebRTC signaling state (src/remote-bridge.ts).  Timestamps are
integer milliseconds modelled as `Nat`; JavaScript `Map`s are modelled as
association lists with `Map.set` replace-in-place semantics; fallible
handler execution is modelled by passing the handler's outcome as an
`Except` value.
-/

namespace Watchdog

/-- Lookup in an association list keyed by strings (models `Map.get`). -/
def alookup {α : Type} : List (String × α) → String → Option α
  | [], _ => none
  | (k, v) :: rest, key => if k = key then some v else alookup rest key

/-- Insert-or-replace in an association list (models `Map.set`, which
replaces an existing binding in place). -/
def aset {α : Type} : List (String × α) → String → α → List (String × α)
  | [], key, v => [(key, v)]
  | (k, w) :: rest, key, v =>
    if k = key then (key, v) :: rest else (k, w) :: aset rest key v

-- --- Command / ack data model (src/types.ts, per usage in src/commands.ts) ---

/-- Ack status enumeration (`AckStatus`). -/
inductive AckStatus
  | RECEIVED
  | ACCEPTED
  | APPLIED
  | REJECTED
  | FAILED
  | EXPIRED
deriving DecidableEq

/-- Details maps (`Record<string, any>`) are modelled as string association
lists; only equality of details matters to the properties proved here. -/
def Details : Type := List (String × String)

instance : DecidableEq Details := by
  unfold Details
  infer_instance

/-- Ack envelope (`AckPayload`). -/
structure AckPayload where
  schema : String
  ts : Nat
  commandId : String
  status : AckStatus
  message : String
  details : Details
deriving DecidableEq

/-- Command envelope (`CommandPayload`). -/
structure CommandPayload where
  schema : String
  ts : Nat
  commandId : String
  ttlMs : Nat
  type : String
  args : Details
deriving DecidableEq

/-- Command definition (`CommandDef` in src/commands.ts); the handler's
behaviour is supplied separately at each `handle` call. -/
structure CommandDef where
  type : String
  requiresLease : Bool
  localBypass : Bool
deriving DecidableEq

-- --- Lease manager (src/lease.ts) ---

/-- Lease payload from the retained lease topic (`LeasePayload`). -/
structure LeasePayload where
  owner : String
  expiresTs : Nat
deriving DecidableEq

/-- Mutable state of `LeaseManager`: `owner` starts `null`, `expiresTs`
starts 0. -/
structure LeaseManager where
  owner : Option String
  expiresTs : Nat
deriving DecidableEq

namespace LeaseManager

/-- Initial lease state (`owner = null`, `expiresTs = 0`). -/
def init : LeaseManager := { owner := none, expiresTs := 0 }

/-- Truthiness of `this.owner` in JavaScript: `null` and the empty string
are falsy, every other string is truthy. -/
def ownerTruthy (l : LeaseManager) : Bool :=
  match l.owner with
  | none => false
  | some o => o ≠ ""

/-- The `update` method: rejects when `this.owner && this.owner !==
payload.owner && this.expiresTs > now`, otherwise installs the incoming
owner and expiry. -/
def update (l : LeaseManager) (p : LeasePayload) (now : Nat) : LeaseManager :=
  if l.ownerTruthy && l.owner ≠ some p.owner && now < l.expiresTs then
    l
  else
    { owner := some p.owner, expiresTs := p.expiresTs }

/-- The `isActive` method: `this.owner !== null && this.expiresTs >
Date.now()`. -/
def isActive (l : LeaseManager) (now : Nat) : Bool :=
  l.owner.isSome && decide (now < l.expiresTs)

/-- The `getOwner` method: `null` unless the lease is active. -/
def getOwner (l : LeaseManager) (now : Nat) : Option String :=
  if l.isActive now then l.owner else none

end LeaseManager

/-- Result of `validateLease`: `allowed` with an optional denial reason. -/
structure LeaseCheck where
  allowed : Bool
  reason : Option String
deriving DecidableEq

/-- The `validateLease` function in src/lease.ts. -/
def validateLease (leaseManager : LeaseManager) (clientId : String)
    (isLocal : Bool) (commandDef : CommandDef) (now : Nat) : LeaseCheck :=
  if !commandDef.requiresLease then
    { allowed := true, reason := none }
  else if isLocal && commandDef.localBypass then
    { allowed := true, reason := none }
  else if !(leaseManager.isActive now) then
    { allowed := false, reason := some "No active lease" }
  else if leaseManager.getOwner now ≠ some clientId then
    { allowed := false,
      reason := some ("Lease held by " ++ ((leaseManager.getOwner now).getD "null")) }
  else
    { allowed := true, reason := none }

-- --- Command processor (src/commands.ts) ---

/-- Idempotency store entry (`IdempotencyEntry`). -/
structure IdempotencyEntry where
  ack : AckPayload
  expiresAt : Nat
deriving DecidableEq

/-- The process-wide idempotency store (`Map<string, IdempotencyEntry>`). -/
def Store : Type := List (String × IdempotencyEntry)

instance : DecidableEq Store := by
  unfold Store
  infer_instance

/-- Idempotency TTL (`IDEMPOTENCY_TTL_MS = 60_000`). -/
def IDEMPOTENCY_TTL_MS : Nat := 60000

/-- The 30-second sweeper body: delete every entry with `now >=
entry.expiresAt`. -/
def sweepStore (store : Store) (now : Nat) : Store :=
  store.filter (fun kv => decide (now < kv.2.expiresAt))

/-- Outcome of one invocation of a registered handler: `.ok (message,
details)` on resolution, `.error message` on rejection/throw. -/
def HandlerOutcome : Type := Except String (String × Details)

/-- Everything observable from one `CommandProcessor.handle` call: the
returned ack, the acks sent (MQTT publish plus WebSocket broadcast, in
order), the lifecycle event types emitted, whether the registered handler
was invoked, and the idempotency store afterwards. -/
structure HandleResult where
  ack : AckPayload
  acksSent : List AckPayload
  events : List String
  handlerInvoked : Bool
  store : Store
deriving DecidableEq

namespace CommandProcessor

/-- The private `makeAck` helper. -/
def makeAck (now : Nat) (commandId : String) (status : AckStatus)
    (message : String) (details : Details) : AckPayload :=
  { schema := "vu.watchdog.ack.v1"
    ts := now
    commandId := commandId
    status := status
    message := message
    details := details }

/-- Lifecycle events of one `handle` call after step 4: the initial
`COMMAND_RECEIVED`, plus `LOCAL_OVERRIDE_USED` when the lease check denied
but `isLocal && def.localBypass` holds. -/
def handleEvents (leaseManager : LeaseManager) (clientId : String)
    (isLocal : Bool) (cdef : CommandDef) (now : Nat) : List String :=
  if !(validateLease leaseManager clientId isLocal cdef now).allowed
      && (isLocal && cdef.localBypass) then
    ["COMMAND_RECEIVED", "LOCAL_OVERRIDE_USED"]
  else
    ["COMMAND_RECEIVED"]

/-- The `CommandProcessor.handle` method.  The command registry is the
association list built by `registerCommand` (keyed by `def.type`), `store`
is the idempotency store at entry, and `outcome` is what the registered
handler would do if invoked with `payload.args`.  `Date.now()` is modelled
by the single parameter `now`. -/
def handle (registry : List (String × CommandDef)) (leaseManager : LeaseManager)
    (store : Store) (payload : CommandPayload) (clientId : String)
    (isLocal : Bool) (now : Nat) (outcome : HandlerOutcome) : HandleResult :=
  -- 1. Idempotency check
  match alookup store payload.commandId with
  | some existing =>
    { ack := existing.ack, acksSent := [existing.ack], events := ["COMMAND_RECEIVED"]
      handlerInvoked := false, store := store }
  | none =>
    -- 2. TTL check
    if payload.ts + payload.ttlMs < now then
      { ack := makeAck now payload.commandId .EXPIRED "Command TTL exceeded" []
        acksSent := [makeAck now payload.commandId .EXPIRED "Command TTL exceeded" []]
        events := ["COMMAND_RECEIVED"], handlerInvoked := false, store := store }
    else
      -- 3. Lookup command
      match alookup registry payload.type with
      | none =>
        { ack := makeAck now payload.commandId .REJECTED
            ("Unknown command: " ++ payload.type) []
          acksSent := [makeAck now payload.commandId .REJECTED
            ("Unknown command: " ++ payload.type) []]
          events := ["COMMAND_RECEIVED"], handlerInvoked := false, store := store }
      | some cdef =>
        -- 4. Lease check (with the LOCAL_OVERRIDE_USED event branch)
        if !(validateLease leaseManager clientId isLocal cdef now).allowed
            && !(isLocal && cdef.localBypass) then
          { ack := makeAck now payload.commandId .REJECTED
              ((validateLease leaseManager clientId isLocal cdef now).reason.getD "") []
            acksSent := [makeAck now payload.commandId .REJECTED
              ((validateLease leaseManager clientId isLocal cdef now).reason.getD "") []]
            events := handleEvents leaseManager clientId isLocal cdef now
            handlerInvoked := false, store := store }
        else
          -- 5. Ack RECEIVED, 6. Execute
          match outcome with
          | .ok (message, details) =>
            { ack := makeAck now payload.commandId .APPLIED message details
              acksSent := [makeAck now payload.commandId .RECEIVED "Command received" [],
                makeAck now payload.commandId .APPLIED message details]
              events := handleEvents leaseManager clientId isLocal cdef now
              handlerInvoked := true
              store := aset store payload.commandId
                { ack := makeAck now payload.commandId .APPLIED message details
                  expiresAt := now + IDEMPOTENCY_TTL_MS } }
          | .error emsg =>
            { ack := makeAck now payload.commandId .FAILED
                (if emsg = "" then "Execution failed" else emsg) []
              acksSent := [makeAck now payload.commandId .RECEIVED "Command received" [],
                makeAck now payload.commandId .FAILED
                  (if emsg = "" then "Execution failed" else emsg) []]
              events := handleEvents leaseManager clientId isLocal cdef now
              handlerInvoked := true, store := store }

end CommandProcessor

-- --- Telemetry data model (src/types.ts) ---

/-- Event-log summary (`EventLogMetrics`). -/
structure EventLogMetrics where
  count : ℚ
  lastMessage : Option String
  lastTime : Option String
deriving DecidableEq

/-- System metrics (`SystemMetrics`); JavaScript numbers are modelled as
rationals. -/
structure SystemMetrics where
  cpuUsage : ℚ
  cpuModel : String
  cpuCores : ℚ
  ramTotalMB : ℚ
  ramUsedMB : ℚ
  ramPercent : ℚ
  gpuName : Option String
  gpuUsage : Option ℚ
  gpuMemUsedMB : Option ℚ
  gpuMemTotalMB : Option ℚ
  gpuTemp : Option ℚ
  diskTotalMB : ℚ
  diskUsedMB : ℚ
  diskPercent : ℚ
  diskReadMBps : ℚ
  diskWriteMBps : ℚ
  thermalThrottling : Bool
  pendingUpdates : ℚ
  eventLog : EventLogMetrics
  uptime : ℚ
deriving DecidableEq

/-- Network metrics (`NetworkMetrics`). -/
structure NetworkMetrics where
  internetOnline : Bool
  latencyMs : Option ℚ
  localServerReachable : Bool
  connectedPeers : ℚ
deriving DecidableEq

/-- Server lock-file record (`ServerLockInfo`). -/
structure ServerLockInfo where
  pid : Option ℚ
  startTime : Option ℚ
  lastHeartbeat : Option ℚ
  heartbeatAgeMs : Option ℚ
  healthy : Bool
deriving DecidableEq

/-- Log summary (`LogMetrics`). -/
structure LogMetrics where
  recentErrorCount : ℚ
  lastError : Option String
  lastErrorTime : Option String
deriving DecidableEq

/-- Application metrics (`AppMetrics`).  `serverLock` is nullable at
runtime (src/health.ts checks `t.app.serverLock !== null` and
`t.app.serverLock?.healthy`), so it is modelled as an option. -/
structure AppMetrics where
  vuosProcessRunning : Bool
  serverProcessRunning : Bool
  serverVersion : String
  vuosMemoryMB : Option ℚ
  crashCountToday : ℚ
  serverLock : Option ServerLockInfo
  logs : LogMetrics
deriving DecidableEq

/-- Telemetry snapshot (`TelemetryPayload`). -/
structure TelemetryPayload where
  timestamp : Nat
  wallId : String
  system : SystemMetrics
  network : NetworkMetrics
  app : AppMetrics
deriving DecidableEq

-- --- Health condition engine (src/health.ts) ---

/-- Condition severity level (`ConditionLevel`). -/
inductive ConditionLevel
  | DEGRADED
  | CRITICAL
deriving DecidableEq

/-- Condition definition (`ConditionDef` in src/health.ts). -/
structure ConditionDef where
  id : String
  level : ConditionLevel
  debounceMs : Nat
  evaluate : TelemetryPayload → Bool

/-- The fixed `CONDITIONS` table of src/health.ts, predicates included. -/
def CONDITIONS : List ConditionDef :=
  [ { id := "VUOS_DOWN", level := .CRITICAL, debounceMs := 10000,
      evaluate := fun t => !t.app.vuosProcessRunning },
    { id := "SERVER_DOWN", level := .CRITICAL, debounceMs := 10000,
      evaluate := fun t => !t.app.serverProcessRunning },
    { id := "DISK_FULL", level := .CRITICAL, debounceMs := 0,
      evaluate := fun t => decide ((97 : ℚ) ≤ t.system.diskPercent) },
    { id := "THERMAL_THROTTLING", level := .CRITICAL, debounceMs := 0,
      evaluate := fun t => t.system.thermalThrottling },
    { id := "LOCK_STALE", level := .CRITICAL, debounceMs := 0,
      evaluate := fun t =>
        match t.app.serverLock with
        | none => false
        | some lk => !lk.healthy && decide ((15000 : ℚ) < lk.heartbeatAgeMs.getD 0) },
    { id := "INTERNET_OFFLINE", level := .DEGRADED, debounceMs := 30000,
      evaluate := fun t => !t.network.internetOnline },
    { id := "LATENCY_HIGH", level := .DEGRADED, debounceMs := 60000,
      evaluate := fun t => decide ((250 : ℚ) < t.network.latencyMs.getD 0) },
    { id := "DISK_HIGH", level := .DEGRADED, debounceMs := 0,
      evaluate := fun t =>
        decide ((90 : ℚ) ≤ t.system.diskPercent) && decide (t.system.diskPercent < 97) },
    { id := "GPU_PROBE_FAILED", level := .DEGRADED, debounceMs := 60000,
      evaluate := fun t => t.system.gpuName.isNone },
    { id := "ERRORS_HIGH", level := .DEGRADED, debounceMs := 0,
      evaluate := fun t => decide ((5 : ℚ) ≤ t.app.logs.recentErrorCount) } ]

/-- Per-condition mutable state (`ConditionState`). -/
structure ConditionState where
  id : String
  level : ConditionLevel
  rawActive : Bool
  active : Bool
  activeSince : Option Nat
deriving DecidableEq

/-- The per-condition body of the `evaluateConditions` loop.  `activeSince!`
in the source is modelled by `Option.getD 0` (it is proved always set when
read). -/
def stepCondition (debounceMs : Nat) (triggered : Bool) (now : Nat)
    (state : ConditionState) : ConditionState :=
  if triggered then
    let s1 :=
      if !state.rawActive then
        { state with rawActive := true, activeSince := some now }
      else state
    if debounceMs = 0 || debounceMs ≤ now - s1.activeSince.getD 0 then
      { s1 with active := true }
    else s1
  else
    { state with rawActive := false, active := false, activeSince := none }

/-- One full `evaluateConditions` pass: the definitions and their states are
kept in parallel lists (the source keys its state map by the same ids in
the same order). -/
def evalConditions : List ConditionDef → List ConditionState → TelemetryPayload
    → Nat → List ConditionState
  | [], _, _, _ => []
  | _ :: _, [], _, _ => []
  | d :: ds, s :: ss, t, now =>
    stepCondition d.debounceMs (d.evaluate t) now s :: evalConditions ds ss t now

/-- The initial condition states created at module load: all inactive. -/
def initialStates : List ConditionState :=
  CONDITIONS.map fun d =>
    { id := d.id, level := d.level, rawActive := false, active := false,
      activeSince := none }

/-- A sequence of `evaluateConditions` calls, each with its telemetry
snapshot and its `Date.now()` value. -/
def runConditions : List (TelemetryPayload × Nat) → List ConditionState
    → List ConditionState
  | [], ss => ss
  | (t, now) :: rest, ss => runConditions rest (evalConditions CONDITIONS ss t now)

-- --- Health payload builder (src/health.ts) ---

/-- Operational mode (`OperationalMode`). -/
inductive OperationalMode
  | STARTING
  | READY
  | DEGRADED
  | CRITICAL
  | SHUTTING_DOWN
deriving DecidableEq

/-- JavaScript `Math.round`: round half toward positive infinity. -/
def jsRound (x : ℚ) : ℤ := ⌊x + 1 / 2⌋

/-- System summary block of `HealthPayload`. -/
structure HealthSystem where
  cpu : ℚ
  mem : ℚ
  gpu : Option ℚ
  disk : ℚ
deriving DecidableEq

/-- Network summary block of `HealthPayload`. -/
structure HealthNetwork where
  internet : Bool
  latencyMs : Option ℚ
  localServer : Bool
  peers : ℚ
deriving DecidableEq

/-- App summary block of `HealthPayload`. -/
structure HealthApp where
  vuos : String
  server : String
  lockHealthy : Bool
  recentErrors : ℚ
deriving DecidableEq

/-- Health payload (`HealthPayload`). -/
structure HealthPayload where
  schema : String
  ts : Nat
  wallId : String
  mode : OperationalMode
  conditions : List String
  system : HealthSystem
  network : HealthNetwork
  app : HealthApp
deriving DecidableEq

/-- The `buildHealth` function of src/health.ts. -/
def buildHealth (wallId : String) (telemetry : TelemetryPayload)
    (mode : OperationalMode) (conditions : List ConditionState) (now : Nat) :
    HealthPayload :=
  let activeConditionIds := (conditions.filter fun c => c.active).map fun c => c.id
  { schema := "vu.watchdog.health.v1"
    ts := now
    wallId := wallId
    mode := mode
    conditions := activeConditionIds
    system :=
      { cpu := (jsRound telemetry.system.cpuUsage : ℚ) / 100
        mem := (jsRound telemetry.system.ramPercent : ℚ) / 100
        gpu := match telemetry.system.gpuUsage with
               | some g => some ((jsRound g : ℚ) / 100)
               | none => none
        disk := (jsRound telemetry.system.diskPercent : ℚ) / 100 }
    network :=
      { internet := telemetry.network.internetOnline
        latencyMs := telemetry.network.latencyMs
        localServer := telemetry.network.localServerReachable
        peers := telemetry.network.connectedPeers }
    app :=
      { vuos := if telemetry.app.vuosProcessRunning then "RUNNING" else "STOPPED"
        server := if telemetry.app.serverProcessRunning then "RUNNING" else "STOPPED"
        lockHealthy := (telemetry.app.serverLock.map fun lk => lk.healthy).getD false
        recentErrors := telemetry.app.logs.recentErrorCount } }

-- --- Signaling bridge viewer state (src/remote-bridge.ts) ---

/-- Per-viewer connection state (`ViewerConnection`); the ICE-polling timer
handle is not part of the data the proved properties depend on. -/
structure ViewerConnection where
  id : String
  peerId : String
  connectedAt : Nat
  iceCandidatesSent : List String
  answerReceived : Bool
deriving DecidableEq

/-- The `handleAnswer` function: looks the viewer up in the `viewers` map,
discards the answer if the viewer is unknown or `answerReceived` is already
set, and otherwise latches the flag and forwards `(peerId, sdp)` to the
media engine's set-answer endpoint (returned as the second component). -/
def handleAnswer (viewers : List (String × ViewerConnection)) (viewerId : String)
    (sdp : String) : List (String × ViewerConnection) × Option (String × String) :=
  match alookup viewers viewerId with
  | none => (viewers, none)
  | some viewer =>
    if viewer.answerReceived then
      (viewers, none)
    else
      (aset viewers viewerId { viewer with answerReceived := true },
       some (viewer.peerId, sdp))

/-- A sequence of answers from one viewer, threading the viewers map and
collecting every set-answer call made. -/
def runAnswers (viewers : List (String × ViewerConnection)) (viewerId : String) :
    List String → List (String × ViewerConnection) × List (String × String)
  | [] => (viewers, [])
  | sdp :: rest =>
    ((runAnswers (handleAnswer viewers viewerId sdp).1 viewerId rest).1,
     (handleAnswer viewers viewerId sdp).2.toList
       ++ (runAnswers (handleAnswer viewers viewerId sdp).1 viewerId rest).2)

/-- The candidate loop of `pollIce`: one polling tick's candidate batch is
folded over the viewer's `iceCandidatesSent` set; the second component is
the list of candidates published to the viewer this tick, in order. -/
def pollIce (sent : List String) : List String → List String × List String
  | [] => (sent, [])
  | c :: cs =>
    if c ∈ sent then pollIce sent cs
    else ((pollIce (sent ++ [c]) cs).1, c :: (pollIce (sent ++ [c]) cs).2)

/-- A sequence of polling ticks, threading `iceCandidatesSent` and
concatenating everything published. -/
def runPolls (sent : List String) : List (List String) → List String × List String
  | [] => (sent, [])
  | poll :: rest =>
    ((runPolls (pollIce sent poll).1 rest).1,
     (pollIce sent poll).2 ++ (runPolls (pollIce sent poll).1 rest).2)

-- --- Helper lemmas on the association-list operations ---

theorem alookup_aset_self {α : Type} (m : List (String × α)) (k : String) (v : α) :
    alookup (aset m k v) k = some v := by
  induction m with
  | nil => simp [aset, alookup]
  | cons hd tl ih =>
    obtain ⟨k', w⟩ := hd
    by_cases h : k' = k
    · simp [aset, h, alookup]
    · simp [aset, h, alookup, ih]

theorem alookup_sweepStore_aset (s : Store) (k : String) (e : IdempotencyEntry)
    (n : Nat) (h : n < e.expiresAt) :
    alookup (sweepStore (aset s k e) n) k = some e := by
  induction s with
  | nil => simp [aset, sweepStore, alookup, h]
  | cons hd tl ih =>
    obtain ⟨k', w⟩ := hd
    by_cases hk : k' = k
    · simp [aset, hk, sweepStore, alookup, h]
    · by_cases hw : n < w.expiresAt
      · simpa [aset, hk, sweepStore, alookup, hw] using ih
      · simpa [aset, hk, sweepStore, alookup, hw] using ih

-- --- Claim C6: lease update / isActive rules ---

/-- C6 (amended): `LeaseManager.update` installs the incoming lease if and
only if the current owner is nil, or the current owner is the empty string
(JavaScript truthiness of `this.owner`), or the current lease has
`expiresTs ≤ now`, or the current owner equals the incoming owner;
otherwise the state is unchanged.  `isActive` is true iff the owner is
non-nil and `expiresTs > now`. -/
theorem c6_lease_update_rules (l : LeaseManager) (p : LeasePayload) (now : Nat) :
    (LeaseManager.update l p now = { owner := some p.owner, expiresTs := p.expiresTs }
      ↔ (l.owner = none ∨ l.owner = some "" ∨ l.expiresTs ≤ now ∨ l.owner = some p.owner))
    ∧ (¬(l.owner = none ∨ l.owner = some "" ∨ l.expiresTs ≤ now ∨ l.owner = some p.owner)
        → LeaseManager.update l p now = l)
    ∧ (LeaseManager.isActive l now = true ↔ (l.owner ≠ none ∧ now < l.expiresTs)) := by
  obtain ⟨ow, ex⟩ := l
  rcases ow with _ | o
  · refine ⟨?_, ?_, ?_⟩ <;>
      simp [LeaseManager.update, LeaseManager.ownerTruthy, LeaseManager.isActive]
  · by_cases ho : o = ""
    · subst ho
      refine ⟨?_, ?_, ?_⟩ <;>
        simp [LeaseManager.update, LeaseManager.ownerTruthy, LeaseManager.isActive]
    · by_cases hpo : o = p.owner
      · subst hpo
        refine ⟨?_, ?_, ?_⟩ <;>
          simp [LeaseManager.update, LeaseManager.ownerTruthy, LeaseManager.isActive]
      · by_cases hex : ex ≤ now
        · refine ⟨?_, ?_, ?_⟩ <;>
            simp [LeaseManager.update, LeaseManager.ownerTruthy, LeaseManager.isActive,
              ho, hpo, hex, Nat.not_lt.mpr hex]
        · have hlt : now < ex := Nat.lt_of_not_le hex
          refine ⟨?_, ?_, ?_⟩ <;>
            simp [LeaseManager.update, LeaseManager.ownerTruthy, LeaseManager.isActive,
              ho, hpo, hex, hlt, Option.some.injEq]

/-- Witness for C6: a lease update against an expired lease is accepted. -/
theorem c6_lease_update_rules_wit :
    LeaseManager.update { owner := some "alice", expiresTs := 100 }
        { owner := "bob", expiresTs := 300 } 150
      = { owner := some "bob", expiresTs := 300 } :=
  (c6_lease_update_rules { owner := some "alice", expiresTs := 100 }
    { owner := "bob", expiresTs := 300 } 150).1.mpr (by decide)

/-- Counterexample for C6 as stated: with current owner the empty string
(not nil), an unexpired lease is replaced by a different owner, although
none of the claim's acceptance conditions hold. -/
theorem c6_lease_truthy_cex :
    LeaseManager.update { owner := some "", expiresTs := 100 }
        { owner := "intruder", expiresTs := 200 } 50
      = { owner := some "intruder", expiresTs := 200 }
    ∧ ¬((some "" : Option String) = none
        ∨ (100 : Nat) ≤ 50
        ∨ (some "" : Option String) = some "intruder") := by
  refine ⟨?_, by decide⟩
  simp [LeaseManager.update, LeaseManager.ownerTruthy]

-- --- Claim C10: only APPLIED terminal acks are cached ---

theorem handle_store_cases (registry : List (String × CommandDef))
    (leaseManager : LeaseManager) (store : Store) (payload : CommandPayload)
    (clientId : String) (isLocal : Bool) (now : Nat) (outcome : HandlerOutcome) :
    (CommandProcessor.handle registry leaseManager store payload clientId isLocal now outcome).store = store
    ∨ (CommandProcessor.handle registry leaseManager store payload clientId isLocal now outcome).ack.status
        = AckStatus.APPLIED := by
  unfold CommandProcessor.handle
  repeat' split
  all_goals simp [CommandProcessor.makeAck]

/-- C10: a `handle` call whose terminal ack is not APPLIED (REJECTED,
EXPIRED or FAILED) creates no idempotency entry: the store is unchanged,
so any later call — with the same commandId in particular — behaves exactly
as it would against the original store, re-running the full pipeline. -/
theorem c10_only_applied_cached (registry : List (String × CommandDef))
    (leaseManager : LeaseManager) (store : Store) (payload : CommandPayload)
    (clientId : String) (isLocal : Bool) (now : Nat) (outcome : HandlerOutcome)
    (h : (CommandProcessor.handle registry leaseManager store payload clientId isLocal now outcome).ack.status
        ≠ AckStatus.APPLIED) :
    (CommandProcessor.handle registry leaseManager store payload clientId isLocal now outcome).store = store
    ∧ ∀ (registry2 : List (String × CommandDef)) (lease2 : LeaseManager)
        (payload2 : CommandPayload) (clientId2 : String) (isLocal2 : Bool)
        (now2 : Nat) (outcome2 : HandlerOutcome),
        CommandProcessor.handle registry2 lease2
            (CommandProcessor.handle registry leaseManager store payload clientId isLocal now outcome).store
            payload2 clientId2 isLocal2 now2 outcome2
          = CommandProcessor.handle registry2 lease2 store payload2 clientId2 isLocal2 now2 outcome2 := by
  rcases handle_store_cases registry leaseManager store payload clientId isLocal now outcome with hs | hs
  · exact ⟨hs, by intro r2 l2 p2 c2 il2 n2 o2; rw [hs]⟩
  · exact absurd hs h

/-- Witness for C10: a FAILED command is not cached (the store stays
empty), and a second call with the same commandId can then succeed and be
APPLIED. -/
theorem c10_only_applied_cached_wit :
    (CommandProcessor.handle [("RESTART_VUOS", { type := "RESTART_VUOS", requiresLease := false, localBypass := false })]
        LeaseManager.init []
        { schema := "vu.watchdog.command.v1", ts := 1000, commandId := "r1",
          ttlMs := 15000, type := "RESTART_VUOS", args := [] }
        "cli" false 1000 (.error "boom")).store = ([] : Store)
    ∧ (CommandProcessor.handle [("RESTART_VUOS", { type := "RESTART_VUOS", requiresLease := false, localBypass := false })]
        LeaseManager.init
        (CommandProcessor.handle [("RESTART_VUOS", { type := "RESTART_VUOS", requiresLease := false, localBypass := false })]
          LeaseManager.init []
          { schema := "vu.watchdog.command.v1", ts := 1000, commandId := "r1",
            ttlMs := 15000, type := "RESTART_VUOS", args := [] }
          "cli" false 1000 (.error "boom")).store
        { schema := "vu.watchdog.command.v1", ts := 1000, commandId := "r1",
          ttlMs := 15000, type := "RESTART_VUOS", args := [] }
        "cli" false 1500 (.ok ("restarted", []))).ack.status = AckStatus.APPLIED :=
  ⟨(c10_only_applied_cached _ _ _ _ _ _ _ _ (by decide)).1, by decide⟩

-- --- Claim C3: TTL comparison is strict ---

/-- C3 (amended): for a command that is not an idempotency replay, `handle`
classifies it EXPIRED exactly when `payload.ts + payload.ttlMs < now`
strictly; in particular `ttlMs = 0` with `ts = now` is NOT classified
EXPIRED. -/
theorem c3_ttl_strict (registry : List (String × CommandDef))
    (leaseManager : LeaseManager) (store : Store) (payload : CommandPayload)
    (clientId : String) (isLocal : Bool) (now : Nat) (outcome : HandlerOutcome)
    (hfresh : alookup store payload.commandId = none) :
    (CommandProcessor.handle registry leaseManager store payload clientId isLocal now outcome).ack.status
        = AckStatus.EXPIRED
      ↔ payload.ts + payload.ttlMs < now := by
  by_cases httl : payload.ts + payload.ttlMs < now
  · simp [CommandProcessor.handle, hfresh, httl, CommandProcessor.makeAck]
  · simp only [CommandProcessor.handle, hfresh, httl, if_false, iff_false]
    repeat' split
    all_goals simp [CommandProcessor.makeAck, httl]

/-- Witness for C3: at `ts = now = 1000` and `ttlMs = 0`, being classified
EXPIRED is equivalent to `1000 + 0 < 1000`, which is false. -/
theorem c3_ttl_strict_wit :
    (CommandProcessor.handle [] LeaseManager.init []
        { schema := "vu.watchdog.command.v1", ts := 1000, commandId := "c3",
          ttlMs := 0, type := "RESTART_VUOS", args := [] }
        "cli" false 1000 (.error "x")).ack.status = AckStatus.EXPIRED
      ↔ 1000 + 0 < 1000 :=
  c3_ttl_strict [] LeaseManager.init []
    { schema := "vu.watchdog.command.v1", ts := 1000, commandId := "c3",
      ttlMs := 0, type := "RESTART_VUOS", args := [] }
    "cli" false 1000 (.error "x") (by decide)

/-- Counterexample for C3 as stated: the concrete envelope with `ttlMs = 0`
and `ts = now = 1000` is classified REJECTED (unknown command), not
EXPIRED: the strict `<` lets it pass the TTL check. -/
theorem c3_ttl_zero_cex :
    (CommandProcessor.handle [] LeaseManager.init []
        { schema := "vu.watchdog.command.v1", ts := 1000, commandId := "c3",
          ttlMs := 0, type := "RESTART_VUOS", args := [] }
        "cli" false 1000 (.error "x")).ack.status = AckStatus.REJECTED
    ∧ AckStatus.REJECTED ≠ AckStatus.EXPIRED := by
  decide

-- --- Claim C2: ack sequence per handle call ---

/-- C2 (amended): for a call that is not an idempotency replay (no stored
entry for the commandId), if the handler is dispatched the acks are
RECEIVED followed by exactly one of APPLIED or FAILED, and if the handler
is not dispatched exactly one REJECTED or EXPIRED ack is emitted and
RECEIVED is not; a replayed call instead emits exactly the single stored
terminal ack without dispatching the handler. -/
theorem c2_ack_sequence (registry : List (String × CommandDef))
    (leaseManager : LeaseManager) (store : Store) (payload : CommandPayload)
    (clientId : String) (isLocal : Bool) (now : Nat) (outcome : HandlerOutcome) :
    (∀ e, alookup store payload.commandId = some e →
      (CommandProcessor.handle registry leaseManager store payload clientId isLocal now outcome).acksSent
          = [e.ack]
        ∧ (CommandProcessor.handle registry leaseManager store payload clientId isLocal now outcome).handlerInvoked
          = false)
    ∧ (alookup store payload.commandId = none →
      ((CommandProcessor.handle registry leaseManager store payload clientId isLocal now outcome).handlerInvoked
          = true
        ∧ ((CommandProcessor.handle registry leaseManager store payload clientId isLocal now outcome).acksSent.map
              AckPayload.status = [AckStatus.RECEIVED, AckStatus.APPLIED]
          ∨ (CommandProcessor.handle registry leaseManager store payload clientId isLocal now outcome).acksSent.map
              AckPayload.status = [AckStatus.RECEIVED, AckStatus.FAILED]))
      ∨ ((CommandProcessor.handle registry leaseManager store payload clientId isLocal now outcome).handlerInvoked
          = false
        ∧ ((CommandProcessor.handle registry leaseManager store payload clientId isLocal now outcome).acksSent.map
              AckPayload.status = [AckStatus.REJECTED]
          ∨ (CommandProcessor.handle registry leaseManager store payload clientId isLocal now outcome).acksSent.map
              AckPayload.status = [AckStatus.EXPIRED]))) := by
  constructor
  · intro e he
    simp [CommandProcessor.handle, he]
  · intro hn
    simp only [CommandProcessor.handle, hn]
    repeat' split
    all_goals simp [CommandProcessor.makeAck]

/-- Counterexample for C2 as stated: a duplicate commandId is replayed from
the idempotency store — the handler is not dispatched, yet the single ack
emitted is APPLIED, not REJECTED or EXPIRED. -/
theorem c2_replay_cex :
    (CommandProcessor.handle [] LeaseManager.init
        [("dup", { ack := { schema := "vu.watchdog.ack.v1", ts := 5, commandId := "dup",
                            status := AckStatus.APPLIED, message := "ok", details := [] },
                   expiresAt := 60005 })]
        { schema := "vu.watchdog.command.v1", ts := 100, commandId := "dup",
          ttlMs := 1000, type := "RESTART_VUOS", args := [] }
        "cli" false 100 (.error "x")).handlerInvoked = false
    ∧ (CommandProcessor.handle [] LeaseManager.init
        [("dup", { ack := { schema := "vu.watchdog.ack.v1", ts := 5, commandId := "dup",
                            status := AckStatus.APPLIED, message := "ok", details := [] },
                   expiresAt := 60005 })]
        { schema := "vu.watchdog.command.v1", ts := 100, commandId := "dup",
          ttlMs := 1000, type := "RESTART_VUOS", args := [] }
        "cli" false 100 (.error "x")).acksSent.map AckPayload.status = [AckStatus.APPLIED] := by
  decide

-- --- Claim C1: idempotent replay of APPLIED commands ---

theorem handle_applied_cases (registry : List (String × CommandDef))
    (leaseManager : LeaseManager) (store : Store) (payload : CommandPayload)
    (clientId : String) (isLocal : Bool) (now : Nat) (outcome : HandlerOutcome) :
    ((CommandProcessor.handle registry leaseManager store payload clientId isLocal now outcome).ack.status
        = AckStatus.APPLIED
      ∧ (CommandProcessor.handle registry leaseManager store payload clientId isLocal now outcome).handlerInvoked
        = true
      ∧ (CommandProcessor.handle registry leaseManager store payload clientId isLocal now outcome).store
        = aset store payload.commandId
            { ack := (CommandProcessor.handle registry leaseManager store payload clientId isLocal now outcome).ack
              expiresAt := now + IDEMPOTENCY_TTL_MS })
    ∨ (CommandProcessor.handle registry leaseManager store payload clientId isLocal now outcome).ack.status
        ≠ AckStatus.APPLIED
    ∨ (∃ e, alookup store payload.commandId = some e) := by
  unfold CommandProcessor.handle
  repeat' split
  all_goals simp_all [CommandProcessor.makeAck]

/-- C1 (amended): when the first `handle` call for a fresh commandId ends
APPLIED, it invokes the handler, and a second call with the identical
envelope within the 60 000 ms idempotency TTL (the sweeper not having
evicted the entry) re-emits the stored terminal ack — byte-identical to the
first — without invoking the handler.  Commands whose first call ends
REJECTED, EXPIRED or FAILED are not cached and are re-processed. -/
theorem c1_applied_idempotent (registry registry2 : List (String × CommandDef))
    (leaseManager lease2 : LeaseManager) (store : Store) (payload : CommandPayload)
    (clientId clientId2 : String) (isLocal isLocal2 : Bool) (now now2 : Nat)
    (outcome outcome2 : HandlerOutcome)
    (hfresh : alookup store payload.commandId = none)
    (happl : (CommandProcessor.handle registry leaseManager store payload clientId isLocal now outcome).ack.status
        = AckStatus.APPLIED)
    (httl : now2 < now + IDEMPOTENCY_TTL_MS) :
    (CommandProcessor.handle registry leaseManager store payload clientId isLocal now outcome).handlerInvoked
      = true
    ∧ CommandProcessor.handle registry2 lease2
        (sweepStore (CommandProcessor.handle registry leaseManager store payload clientId isLocal now outcome).store now2)
        payload clientId2 isLocal2 now2 outcome2
      = { ack := (CommandProcessor.handle registry leaseManager store payload clientId isLocal now outcome).ack
          acksSent := [(CommandProcessor.handle registry leaseManager store payload clientId isLocal now outcome).ack]
          events := ["COMMAND_RECEIVED"]
          handlerInvoked := false
          store := sweepStore (CommandProcessor.handle registry leaseManager store payload clientId isLocal now outcome).store now2 } := by
  rcases handle_applied_cases registry leaseManager store payload clientId isLocal now outcome with
    ⟨_, hinv, hstore⟩ | hne | ⟨e, he⟩
  · set r1 := CommandProcessor.handle registry leaseManager store payload clientId isLocal now outcome
    refine ⟨hinv, ?_⟩
    have hlook : alookup (sweepStore r1.store now2) payload.commandId
        = some { ack := r1.ack, expiresAt := now + IDEMPOTENCY_TTL_MS } := by
      rw [hstore]
      exact alookup_sweepStore_aset _ _ _ _ httl
    simp only [CommandProcessor.handle, hlook]
  · exact absurd happl hne
  · rw [he] at hfresh
    cases hfresh

/-- Witness for C1's amended theorem: a concrete REQUEST_TELEMETRY command
is APPLIED, then replayed from the cache 500 ms later with the identical
terminal ack and no second handler run. -/
theorem c1_applied_idempotent_wit :
    (CommandProcessor.handle
        [("REQUEST_TELEMETRY", { type := "REQUEST_TELEMETRY", requiresLease := false, localBypass := false })]
        LeaseManager.init []
        { schema := "vu.watchdog.command.v1", ts := 1000, commandId := "abc",
          ttlMs := 15000, type := "REQUEST_TELEMETRY", args := [] }
        "cli" false 1000 (.ok ("telemetry published", []))).handlerInvoked = true
    ∧ CommandProcessor.handle
        [("REQUEST_TELEMETRY", { type := "REQUEST_TELEMETRY", requiresLease := false, localBypass := false })]
        LeaseManager.init
        (sweepStore (CommandProcessor.handle
          [("REQUEST_TELEMETRY", { type := "REQUEST_TELEMETRY", requiresLease := false, localBypass := false })]
          LeaseManager.init []
          { schema := "vu.watchdog.command.v1", ts := 1000, commandId := "abc",
            ttlMs := 15000, type := "REQUEST_TELEMETRY", args := [] }
          "cli" false 1000 (.ok ("telemetry published", []))).store 1500)
        { schema := "vu.watchdog.command.v1", ts := 1000, commandId := "abc",
          ttlMs := 15000, type := "REQUEST_TELEMETRY", args := [] }
        "cli" false 1500 (.ok ("telemetry published", []))
      = { ack := (CommandProcessor.handle
            [("REQUEST_TELEMETRY", { type := "REQUEST_TELEMETRY", requiresLease := false, localBypass := false })]
            LeaseManager.init []
            { schema := "vu.watchdog.command.v1", ts := 1000, commandId := "abc",
              ttlMs := 15000, type := "REQUEST_TELEMETRY", args := [] }
            "cli" false 1000 (.ok ("telemetry published", []))).ack
          acksSent := [(CommandProcessor.handle
            [("REQUEST_TELEMETRY", { type := "REQUEST_TELEMETRY", requiresLease := false, localBypass := false })]
            LeaseManager.init []
            { schema := "vu.watchdog.command.v1", ts := 1000, commandId := "abc",
              ttlMs := 15000, type := "REQUEST_TELEMETRY", args := [] }
            "cli" false 1000 (.ok ("telemetry published", []))).ack]
          events := ["COMMAND_RECEIVED"]
          handlerInvoked := false
          store := sweepStore (CommandProcessor.handle
            [("REQUEST_TELEMETRY", { type := "REQUEST_TELEMETRY", requiresLease := false, localBypass := false })]
            LeaseManager.init []
            { schema := "vu.watchdog.command.v1", ts := 1000, commandId := "abc",
              ttlMs := 15000, type := "REQUEST_TELEMETRY", args := [] }
            "cli" false 1000 (.ok ("telemetry published", []))).store 1500 } :=
  c1_applied_idempotent _ _ _ _ _ _ _ _ _ _ _ _ _ _ (by decide) (by decide) (by decide)

/-- Counterexample for C1 as stated: a command whose handler fails both
times is not cached, so calling `handle` twice with the identical envelope
within the idempotency TTL invokes the handler twice, not once, and the
second call is not served from the store. -/
theorem c1_failed_twice_cex :
    (CommandProcessor.handle
        [("RESTART_VUOS", { type := "RESTART_VUOS", requiresLease := false, localBypass := false })]
        LeaseManager.init []
        { schema := "vu.watchdog.command.v1", ts := 1000, commandId := "r1",
          ttlMs := 15000, type := "RESTART_VUOS", args := [] }
        "cli" false 1000 (.error "boom")).handlerInvoked = true
    ∧ (CommandProcessor.handle
        [("RESTART_VUOS", { type := "RESTART_VUOS", requiresLease := false, localBypass := false })]
        LeaseManager.init
        (CommandProcessor.handle
          [("RESTART_VUOS", { type := "RESTART_VUOS", requiresLease := false, localBypass := false })]
          LeaseManager.init []
          { schema := "vu.watchdog.command.v1", ts := 1000, commandId := "r1",
            ttlMs := 15000, type := "RESTART_VUOS", args := [] }
          "cli" false 1000 (.error "boom")).store
        { schema := "vu.watchdog.command.v1", ts := 1000, commandId := "r1",
          ttlMs := 15000, type := "RESTART_VUOS", args := [] }
        "cli" false 1500 (.error "boom")).handlerInvoked = true := by
  decide

-- --- Claim C4: the LOCAL_OVERRIDE_USED event is dead code ---

theorem handleEvents_no_override (lm : LeaseManager) (clientId : String)
    (isLocal : Bool) (cdef : CommandDef) (now : Nat) :
    CommandProcessor.handleEvents lm clientId isLocal cdef now = ["COMMAND_RECEIVED"] := by
  by_cases hb : (isLocal && cdef.localBypass) = true
  · by_cases hr : cdef.requiresLease <;>
      simp [CommandProcessor.handleEvents, validateLease, hb, hr]
  · simp [CommandProcessor.handleEvents, hb]

/-- C4: with no active lease, a local RESTART_VUOS (requiresLease and
localBypass both set) is allowed, the handler runs and RECEIVED/APPLIED
acks are emitted, but NO `LOCAL_OVERRIDE_USED` lifecycle event is emitted:
`validateLease` already returns allowed for the local-bypass case, so the
emit branch in `handle` is unreachable. -/
theorem c4_local_override_event_missing :
    (CommandProcessor.handle
        [("RESTART_VUOS", { type := "RESTART_VUOS", requiresLease := true, localBypass := true })]
        LeaseManager.init []
        { schema := "vu.watchdog.command.v1", ts := 1000, commandId := "r1",
          ttlMs := 15000, type := "RESTART_VUOS", args := [] }
        "local-api" true 1000 (.ok ("Vu One.exe restarted", []))).events = ["COMMAND_RECEIVED"]
    ∧ "LOCAL_OVERRIDE_USED" ∉ (CommandProcessor.handle
        [("RESTART_VUOS", { type := "RESTART_VUOS", requiresLease := true, localBypass := true })]
        LeaseManager.init []
        { schema := "vu.watchdog.command.v1", ts := 1000, commandId := "r1",
          ttlMs := 15000, type := "RESTART_VUOS", args := [] }
        "local-api" true 1000 (.ok ("Vu One.exe restarted", []))).events
    ∧ (CommandProcessor.handle
        [("RESTART_VUOS", { type := "RESTART_VUOS", requiresLease := true, localBypass := true })]
        LeaseManager.init []
        { schema := "vu.watchdog.command.v1", ts := 1000, commandId := "r1",
          ttlMs := 15000, type := "RESTART_VUOS", args := [] }
        "local-api" true 1000 (.ok ("Vu One.exe restarted", []))).handlerInvoked = true
    ∧ (CommandProcessor.handle
        [("RESTART_VUOS", { type := "RESTART_VUOS", requiresLease := true, localBypass := true })]
        LeaseManager.init []
        { schema := "vu.watchdog.command.v1", ts := 1000, commandId := "r1",
          ttlMs := 15000, type := "RESTART_VUOS", args := [] }
        "local-api" true 1000 (.ok ("Vu One.exe restarted", []))).acksSent.map AckPayload.status
      = [AckStatus.RECEIVED, AckStatus.APPLIED] := by
  decide

-- --- Claim C8: first answer per viewer only ---

theorem runAnswers_latched (viewers : List (String × ViewerConnection))
    (viewerId : String) (v : ViewerConnection) (sdps : List String)
    (hv : alookup viewers viewerId = some v) (hlat : v.answerReceived = true) :
    runAnswers viewers viewerId sdps = (viewers, []) := by
  induction sdps with
  | nil => rfl
  | cons s rest ih => simp [runAnswers, handleAnswer, hv, hlat, ih]

/-- C8: for a viewer present in the viewers map, if `answerReceived` is not
yet set then processing any sequence of answers forwards exactly the first
one to the media engine's set-answer endpoint (as `(peerId, sdp)`), latches
`answerReceived`, and makes every later answer a no-op; if the flag is
already set, nothing is ever forwarded. -/
theorem c8_answer_once (viewers : List (String × ViewerConnection))
    (viewerId : String) (v : ViewerConnection) (sdps : List String)
    (hv : alookup viewers viewerId = some v) :
    (v.answerReceived = false →
      (runAnswers viewers viewerId sdps).2 = (sdps.take 1).map fun s => (v.peerId, s))
    ∧ (v.answerReceived = true → (runAnswers viewers viewerId sdps).2 = [])
    ∧ (v.answerReceived = false → sdps ≠ [] →
      alookup (runAnswers viewers viewerId sdps).1 viewerId
        = some { v with answerReceived := true }) := by
  refine ⟨?_, ?_, ?_⟩
  · intro hfresh
    cases sdps with
    | nil => rfl
    | cons s rest =>
      have hlook : alookup (aset viewers viewerId { v with answerReceived := true }) viewerId
          = some { v with answerReceived := true } := alookup_aset_self _ _ _
      simp [runAnswers, handleAnswer, hv, hfresh,
        runAnswers_latched _ _ _ rest hlook rfl]
  · intro hlat
    rw [runAnswers_latched _ _ _ sdps hv hlat]
  · intro hfresh hne
    cases sdps with
    | nil => exact absurd rfl hne
    | cons s rest =>
      have hlook : alookup (aset viewers viewerId { v with answerReceived := true }) viewerId
          = some { v with answerReceived := true } := alookup_aset_self _ _ _
      simp [runAnswers, handleAnswer, hv, hfresh,
        runAnswers_latched _ _ _ rest hlook rfl, hlook]

/-- Witness for C8: a fresh viewer sent two answers forwards only the
first. -/
theorem c8_answer_once_wit :
    (runAnswers
        [("v1", { id := "v1", peerId := "p1", connectedAt := 0,
                  iceCandidatesSent := [], answerReceived := false })]
        "v1" ["sdpA", "sdpB"]).2
      = (["sdpA", "sdpB"].take 1).map fun s => ("p1", s) :=
  (c8_answer_once
    [("v1", { id := "v1", peerId := "p1", connectedAt := 0,
              iceCandidatesSent := [], answerReceived := false })]
    "v1"
    { id := "v1", peerId := "p1", connectedAt := 0,
      iceCandidatesSent := [], answerReceived := false }
    ["sdpA", "sdpB"] (by decide)).1 (by decide)

-- --- Claim C9: ICE candidate de-duplication ---

theorem pollIce_spec (cands : List String) : ∀ (sent : List String),
    (pollIce sent cands).2.Nodup
    ∧ (∀ c, c ∈ (pollIce sent cands).2 ↔ (c ∈ cands ∧ c ∉ sent))
    ∧ (∀ c, c ∈ (pollIce sent cands).1 ↔ (c ∈ sent ∨ c ∈ cands)) := by
  induction cands with
  | nil => intro sent; simp [pollIce]
  | cons c cs ih =>
    intro sent
    by_cases hc : c ∈ sent
    · obtain ⟨hnd, hmem, hsent⟩ := ih sent
      refine ⟨?_, ?_, ?_⟩
      · simpa [pollIce, hc] using hnd
      · intro x
        rw [show (pollIce sent (c :: cs)).2 = (pollIce sent cs).2 by simp [pollIce, hc],
          hmem x]
        constructor
        · rintro ⟨hxs, hxn⟩
          exact ⟨List.mem_cons_of_mem _ hxs, hxn⟩
        · rintro ⟨hxor, hxn⟩
          rcases List.mem_cons.mp hxor with rfl | hxs
          · exact absurd hc hxn
          · exact ⟨hxs, hxn⟩
      · intro x
        rw [show (pollIce sent (c :: cs)).1 = (pollIce sent cs).1 by simp [pollIce, hc],
          hsent x]
        constructor
        · rintro (hx | hx)
          · exact Or.inl hx
          · exact Or.inr (List.mem_cons_of_mem _ hx)
        · rintro (hx | hx)
          · exact Or.inl hx
          · rcases List.mem_cons.mp hx with rfl | hx
            · exact Or.inl hc
            · exact Or.inr hx
    · obtain ⟨hnd, hmem, hsent⟩ := ih (sent ++ [c])
      refine ⟨?_, ?_, ?_⟩
      · rw [show (pollIce sent (c :: cs)).2 = c :: (pollIce (sent ++ [c]) cs).2 by
          simp [pollIce, hc]]
        refine List.nodup_cons.mpr ⟨?_, hnd⟩
        intro hcmem
        exact ((hmem c).mp hcmem).2 (by simp)
      · intro x
        rw [show (pollIce sent (c :: cs)).2 = c :: (pollIce (sent ++ [c]) cs).2 by
          simp [pollIce, hc]]
        simp only [List.mem_cons, hmem x, List.mem_append, List.mem_singleton]
        by_cases hxc : x = c
        · subst hxc
          tauto
        · tauto
      · intro x
        rw [show (pollIce sent (c :: cs)).1 = (pollIce (sent ++ [c]) cs).1 by
          simp [pollIce, hc]]
        rw [hsent x]
        simp only [List.mem_append, List.mem_singleton, List.mem_cons]
        tauto

/-- C9: across any sequence of ICE polling results, each distinct candidate
is published to the viewer exactly once (the published stream has no
duplicates), a candidate is published iff it appears in some poll and was
not already in `iceCandidatesSent`, and the sent set afterwards is exactly
the old set plus everything polled. -/
theorem c9_ice_dedup (sent : List String) (polls : List (List String)) :
    (runPolls sent polls).2.Nodup
    ∧ (∀ c, c ∈ (runPolls sent polls).2 ↔ (c ∈ polls.flatten ∧ c ∉ sent))
    ∧ (∀ c, c ∈ (runPolls sent polls).1 ↔ (c ∈ sent ∨ c ∈ polls.flatten)) := by
  induction polls generalizing sent with
  | nil => simp [runPolls]
  | cons poll rest ih =>
    obtain ⟨hnd1, hmem1, hsent1⟩ := pollIce_spec poll sent
    obtain ⟨hnd2, hmem2, hsent2⟩ := ih (pollIce sent poll).1
    refine ⟨?_, ?_, ?_⟩
    · rw [show (runPolls sent (poll :: rest)).2
          = (pollIce sent poll).2 ++ (runPolls (pollIce sent poll).1 rest).2 from rfl]
      rw [List.nodup_append]
      refine ⟨hnd1, hnd2, ?_⟩
      intro a ha1 ha2
      obtain ⟨hap, hans⟩ := (hmem1 a).mp ha1
      exact ((hmem2 a).mp ha2).2 ((hsent1 a).mpr (Or.inr hap))
    · intro x
      rw [show (runPolls sent (poll :: rest)).2
          = (pollIce sent poll).2 ++ (runPolls (pollIce sent poll).1 rest).2 from rfl]
      simp only [List.mem_append, hmem1 x, hmem2 x, hsent1 x, List.flatten, List.mem_cons]
      tauto
    · intro x
      rw [show (runPolls sent (poll :: rest)).1
          = (runPolls (pollIce sent poll).1 rest).1 from rfl]
      rw [hsent2 x, hsent1 x]
      simp only [List.flatten, List.mem_append, List.mem_cons]
      tauto

-- --- Claim C5: debounce invariant of the condition engine ---

/-- Invariant carried by one condition's state after an evaluation at time
`n` with debounce `d`: an active condition is raw-active with an
`activeSince` at least `d` in the past (unless `d = 0`); a non-raw-active
condition is inactive with no `activeSince`; a raw-active condition always
has an `activeSince`. -/
def CondInv (n d : Nat) (s : ConditionState) : Prop :=
  (s.active = true → s.rawActive = true
    ∧ ∃ t0, s.activeSince = some t0 ∧ (d = 0 ∨ t0 + d ≤ n))
  ∧ (s.rawActive = false → s.active = false ∧ s.activeSince = none)
  ∧ (s.rawActive = true → ∃ t0, s.activeSince = some t0)

theorem stepCondition_inv {d n n2 : Nat} {trig : Bool} {s : ConditionState}
    (hs : CondInv n d s) (hmono : n ≤ n2) :
    CondInv n2 d (stepCondition d trig n2 s) := by
  obtain ⟨h1, h2, h3⟩ := hs
  cases trig with
  | false => simp [stepCondition, CondInv]
  | true =>
    by_cases hraw : s.rawActive = true
    · obtain ⟨t0, ht0⟩ := h3 hraw
      by_cases hd : (d = 0 ∨ d ≤ n2 - s.activeSince.getD 0)
      · have hstep : stepCondition d true n2 s = { s with active := true } := by
          simp [stepCondition, hraw, hd]
        rw [hstep]
        refine ⟨fun _ => ⟨hraw, t0, ht0, ?_⟩, fun hr => ?_, fun _ => ⟨t0, ht0⟩⟩
        · by_cases hd0 : d = 0
          · exact Or.inl hd0
          · rcases hd with hd | hd
            · exact Or.inl hd
            · rw [ht0] at hd
              simp only [Option.getD] at hd
              right
              omega
        · rw [show ({ s with active := true } : ConditionState).rawActive = s.rawActive
            from rfl] at hr
          rw [hraw] at hr
          cases hr
      · have hstep : stepCondition d true n2 s = s := by
          simp [stepCondition, hraw, hd]
        rw [hstep]
        refine ⟨fun ha => ?_, h2, h3⟩
        obtain ⟨hr, t1, ht1, hb⟩ := h1 ha
        exact ⟨hr, t1, ht1, hb.imp id fun hle => hle.trans hmono⟩
    · have hraw2 : s.rawActive = false := by
        cases hr : s.rawActive
        · rfl
        · exact absurd hr hraw
      obtain ⟨hact, hsin⟩ := h2 hraw2
      by_cases hd0 : d = 0
      · have hstep : stepCondition d true n2 s
            = { s with rawActive := true, active := true, activeSince := some n2 } := by
          simp [stepCondition, hraw2, hd0]
        rw [hstep]
        refine ⟨fun _ => ⟨rfl, n2, rfl, Or.inl hd0⟩, ?_, fun _ => ⟨n2, rfl⟩⟩
        intro hr
        simp at hr
      · have hstep : stepCondition d true n2 s
            = { s with rawActive := true, activeSince := some n2 } := by
          simp [stepCondition, hraw2, hd0]
        rw [hstep]
        refine ⟨fun ha => ?_, fun hr => ?_, fun _ => ⟨n2, rfl⟩⟩
        · simp [hact] at ha
        · simp at hr

theorem evalConditions_inv {t : TelemetryPayload} {n n2 : Nat} (hmono : n ≤ n2)
    {ds : List ConditionDef} {ss : List ConditionState}
    (h : List.Forall₂ (fun d s => CondInv n d.debounceMs s) ds ss) :
    List.Forall₂ (fun d s => CondInv n2 d.debounceMs s) ds (evalConditions ds ss t n2) := by
  induction h with
  | nil => exact List.Forall₂.nil
  | cons hd tl ih => exact List.Forall₂.cons (stepCondition_inv hd hmono) ih

/-- Time of the last evaluation in a trace (`n` if the trace is empty). -/
def lastTime (n : Nat) : List (TelemetryPayload × Nat) → Nat
  | [] => n
  | (_, t) :: rest => lastTime t rest

theorem runConditions_inv (trace : List (TelemetryPayload × Nat)) :
    ∀ (ss : List ConditionState) (n : Nat),
    List.Forall₂ (fun d s => CondInv n d.debounceMs s) CONDITIONS ss →
    List.Chain (fun a b => a ≤ b) n (trace.map Prod.snd) →
    List.Forall₂ (fun d s => CondInv (lastTime n trace) d.debounceMs s) CONDITIONS
      (runConditions trace ss) := by
  induction trace with
  | nil => intro ss n h _; exact h
  | cons p rest ih =>
    obtain ⟨t, now2⟩ := p
    intro ss n hinv hchain
    cases hchain with
    | cons hle hchain2 => exact ih _ now2 (evalConditions_inv hle hinv) hchain2

theorem initialStates_inv (n : Nat) :
    List.Forall₂ (fun d s => CondInv n d.debounceMs s) CONDITIONS initialStates := by
  have h : ∀ (l : List ConditionDef),
      List.Forall₂ (fun d s => CondInv n d.debounceMs s) l
        (l.map fun d =>
          { id := d.id, level := d.level, rawActive := false, active := false,
            activeSince := none }) := by
    intro l
    induction l with
    | nil => exact List.Forall₂.nil
    | cons hd tl ih => exact List.Forall₂.cons (by simp [CondInv]) ih
  exact h CONDITIONS

/-- C5: over any sequence of `evaluateConditions` calls with nondecreasing
`Date.now()` values, every condition state in the result satisfies: active
implies raw-active with the elapsed time since `activeSince` at least the
condition's `debounceMs` (or `debounceMs = 0`), and not raw-active implies
not active with `activeSince = nil`. -/
theorem c5_condition_invariant (trace : List (TelemetryPayload × Nat))
    (hmono : List.Chain (fun a b => a ≤ b) 0 (trace.map Prod.snd)) :
    List.Forall₂
      (fun d s =>
        (s.active = true → s.rawActive = true
          ∧ ∃ t0, s.activeSince = some t0
            ∧ (d.debounceMs = 0 ∨ t0 + d.debounceMs ≤ lastTime 0 trace))
        ∧ (s.rawActive = false → s.active = false ∧ s.activeSince = none))
      CONDITIONS (runConditions trace initialStates) := by
  have h := runConditions_inv trace initialStates 0 (initialStates_inv 0) hmono
  exact h.imp fun _ _ hinv => ⟨hinv.1, hinv.2.1⟩

/-- A nominal telemetry snapshot: everything healthy. -/
def telemetryNominal : TelemetryPayload :=
  { timestamp := 0
    wallId := "wall-1"
    system :=
      { cpuUsage := 12, cpuModel := "test-cpu", cpuCores := 8, ramTotalMB := 32000
        ramUsedMB := 8000, ramPercent := 25, gpuName := some "test-gpu"
        gpuUsage := some 10, gpuMemUsedMB := some 500, gpuMemTotalMB := some 8000
        gpuTemp := some 40, diskTotalMB := 500000, diskUsedMB := 100000
        diskPercent := 20, diskReadMBps := 1, diskWriteMBps := 1
        thermalThrottling := false, pendingUpdates := 0
        eventLog := { count := 0, lastMessage := none, lastTime := none }
        uptime := 1000 }
    network :=
      { internetOnline := true, latencyMs := some 20, localServerReachable := true
        connectedPeers := 2 }
    app :=
      { vuosProcessRunning := true, serverProcessRunning := true
        serverVersion := "1.0.0", vuosMemoryMB := some 100, crashCountToday := 0
        serverLock := some
          { pid := some 1, startTime := some 0, lastHeartbeat := some 0
            heartbeatAgeMs := some 10, healthy := true }
        logs := { recentErrorCount := 0, lastError := none, lastErrorTime := none } } }

/-- The nominal snapshot with the target app down. -/
def telemetryVuosDown : TelemetryPayload :=
  { telemetryNominal with
    app := { telemetryNominal.app with vuosProcessRunning := false } }

/-- Witness for C5: two evaluations of a VUOS-down snapshot at t = 100 and
t = 20000 (past the 10 s debounce) satisfy the invariant. -/
theorem c5_condition_invariant_wit :
    List.Chain (fun a b => a ≤ b) 0
      ([(telemetryVuosDown, 100), (telemetryVuosDown, 20000)].map Prod.snd)
    ∧ List.Forall₂
      (fun d s =>
        (s.active = true → s.rawActive = true
          ∧ ∃ t0, s.activeSince = some t0
            ∧ (d.debounceMs = 0
              ∨ t0 + d.debounceMs ≤ lastTime 0 [(telemetryVuosDown, 100), (telemetryVuosDown, 20000)]))
        ∧ (s.rawActive = false → s.active = false ∧ s.activeSince = none))
      CONDITIONS
      (runConditions [(telemetryVuosDown, 100), (telemetryVuosDown, 20000)] initialStates) := by
  have hch : List.Chain (fun a b => a ≤ b) 0
      ([(telemetryVuosDown, 100), (telemetryVuosDown, 20000)].map Prod.snd) :=
    List.Chain.cons (by omega) (List.Chain.cons (by omega) List.Chain.nil)
  exact ⟨hch, c5_condition_invariant [(telemetryVuosDown, 100), (telemetryVuosDown, 20000)] hch⟩

-- --- Claim C7: HealthPayload conditions listing ---

/-- C7 (amended): the `conditions` field of `buildHealth` is the ids of the
active conditions in the order they appear in the input list (the fixed
declaration order of `CONDITIONS`), not sorted lexicographically: it is the
filtered-then-mapped input, a sublist of the input ids, and contains
exactly the active ids. -/
theorem c7_health_conditions (wallId : String) (telemetry : TelemetryPayload)
    (mode : OperationalMode) (conditions : List ConditionState) (now : Nat) :
    (buildHealth wallId telemetry mode conditions now).conditions
      = (conditions.filter (fun c => c.active)).map (fun c => c.id)
    ∧ List.Sublist ((buildHealth wallId telemetry mode conditions now).conditions)
        (conditions.map (fun c => c.id))
    ∧ ∀ i, i ∈ (buildHealth wallId telemetry mode conditions now).conditions
        ↔ ∃ s, s ∈ conditions ∧ s.active = true ∧ s.id = i := by
  refine ⟨rfl, ?_, ?_⟩
  · exact (List.filter_sublist conditions).map (fun c => c.id)
  · intro i
    show i ∈ (conditions.filter (fun c => c.active)).map (fun c => c.id) ↔ _
    simp only [List.mem_map, List.mem_filter]
    constructor
    · rintro ⟨s, ⟨hmem, hact⟩, hid⟩
      exact ⟨s, hmem, by simpa using hact, hid⟩
    · rintro ⟨s, hmem, hact, hid⟩
      exact ⟨s, ⟨hmem, by simpa using hact⟩, hid⟩

/-- Lexicographic (code-point) order on strings, as the spec's "sorted
lexicographically" reads; written over `toList` so it evaluates in the
kernel. -/
def charListLe : List Char → List Char → Bool
  | [], _ => true
  | _ :: _, [] => false
  | a :: as, b :: bs =>
    if a.toNat < b.toNat then true
    else if b.toNat < a.toNat then false
    else charListLe as bs

/-- Counterexample for C7 as stated: with VUOS_DOWN and SERVER_DOWN both
active (declaration order), the conditions field is
`["VUOS_DOWN", "SERVER_DOWN"]`, whose first element exceeds its second in
lexicographic order, so the list is not sorted. -/
theorem c7_unsorted_cex :
    (buildHealth "wall-1" telemetryNominal OperationalMode.CRITICAL
        [{ id := "VUOS_DOWN", level := .CRITICAL, rawActive := true, active := true,
           activeSince := some 0 },
         { id := "SERVER_DOWN", level := .CRITICAL, rawActive := true, active := true,
           activeSince := some 0 }]
        1000).conditions = ["VUOS_DOWN", "SERVER_DOWN"]
    ∧ charListLe "VUOS_DOWN".toList "SERVER_DOWN".toList = false := by
  exact ⟨rfl, by decide⟩

end Watchdog
